import Mathlib

/-!
Verification development for the wxer_lib weather library.

This file gives a shallow embedding of the library's unit system
(src/units.rs), present-weather model and code parser
(src/wxentry/components.rs), the per-layer and per-observation
capability traits with their default derived methods (src/wxentry.rs),
the sparse dynamically-typed backing (src/wxentry/hashmap.rs) and the
comfort-index scorer (src/comfort.rs), together with theorems settling
the specification claims about them.

Modelling conventions:
* Rust f32 values are modelled as exact rationals.  All arithmetic the
  source performs on them (+, -, *, /, comparisons) is embedded as the
  corresponding exact operation on rationals.
* The f32 transcendental intrinsics the source calls (powf, exp, log10,
  cos) and the constant PI are not algebraic operations on rationals;
  they are passed to the embedded definitions as an explicit FloatOps
  record of uninterpreted functions.  No claim in scope depends on the
  value of any of them.
* Rust Option becomes Lean Option; a Rust bail! / error return becomes
  an Option none.
* Rust strings are modelled as lists of characters.
-/

-- ======================================================================
-- Unit system (src/units.rs)
-- ======================================================================

/-- SpeedUnit enum from src/units.rs. -/
inductive SpeedUnit where
  | Mph
  | Kph
  | Knots
  | Mps
deriving DecidableEq, Repr

/-- Coefficient of each speed unit relative to the family default (kph),
from impl Proportional for SpeedUnit in src/units.rs. -/
def speedCoeff : SpeedUnit → ℚ
  | SpeedUnit.Kph => 1
  | SpeedUnit.Mph => 1.609344
  | SpeedUnit.Knots => 1.852
  | SpeedUnit.Mps => 3.6

/-- PressureUnit enum from src/units.rs. -/
inductive PressureUnit where
  | HPa
  | Mbar
  | InHg
  | Psi
  | Atm
deriving DecidableEq, Repr

/-- Coefficients from impl Proportional for PressureUnit. -/
def pressureCoeff : PressureUnit → ℚ
  | PressureUnit.HPa => 1
  | PressureUnit.Mbar => 1
  | PressureUnit.Psi => 68.94757
  | PressureUnit.Atm => 1013.25
  | PressureUnit.InHg => 33.86389

/-- SpecEnergyUnit enum from src/units.rs. -/
inductive SpecEnergyUnit where
  | Jkg
  | M2s2
deriving DecidableEq, Repr

/-- Coefficients from impl Proportional for SpecEnergyUnit. -/
def specEnergyCoeff : SpecEnergyUnit → ℚ
  | SpecEnergyUnit.Jkg => 1
  | SpecEnergyUnit.M2s2 => 1

/-- DistanceUnit enum from src/units.rs. -/
inductive DistanceUnit where
  | Meter
  | Kilometer
  | Feet
  | Mile
  | NauticalMile
deriving DecidableEq, Repr

/-- Coefficients from impl Proportional for DistanceUnit. -/
def distanceCoeff : DistanceUnit → ℚ
  | DistanceUnit.Meter => 1
  | DistanceUnit.Kilometer => 1000
  | DistanceUnit.Feet => 0.3048
  | DistanceUnit.Mile => 1609.344
  | DistanceUnit.NauticalMile => 1852

/-- PrecipUnit enum from src/units.rs. -/
inductive PrecipUnit where
  | Mm
  | Inch
  | Cm
deriving DecidableEq, Repr

/-- Coefficients from impl Proportional for PrecipUnit. -/
def precipCoeff : PrecipUnit → ℚ
  | PrecipUnit.Mm => 1
  | PrecipUnit.Inch => 25.4
  | PrecipUnit.Cm => 2.54

/-- FractionalUnit enum from src/units.rs. -/
inductive FractionalUnit where
  | Percent
  | Decimal
  | Milli
deriving DecidableEq, Repr

/-- Coefficients from impl Proportional for FractionalUnit. -/
def fractionalCoeff : FractionalUnit → ℚ
  | FractionalUnit.Percent => 0.01
  | FractionalUnit.Decimal => 1
  | FractionalUnit.Milli => 0.001

/-- ProportionalUnit struct from src/units.rs: a value tagged with a unit
of a proportional family T.  The family's coefficient function is passed
explicitly where the source reads it from the Proportional trait. -/
structure ProportionalUnit (T : Type) where
  value : ℚ
  unit : T
deriving DecidableEq, Repr

/-- ProportionalUnit conversion from src/units.rs (UnitInternal::convert
for ProportionalUnit): multiply by the source coefficient into the
family default unit, divide by the target coefficient. -/
def ProportionalUnit.convert {T : Type} (coeff : T → ℚ)
    (x : ProportionalUnit T) (u : T) : ProportionalUnit T :=
  { value := x.value * coeff x.unit / coeff u, unit := u }

/-- value_in from src/units.rs: convert, then read the value. -/
def ProportionalUnit.valueIn {T : Type} (coeff : T → ℚ)
    (x : ProportionalUnit T) (u : T) : ℚ :=
  (x.convert coeff u).value

/-- impl Add for ProportionalUnit (src/units.rs lines 435-443): convert
the right-hand operand into the left operand's unit, then add. -/
def ProportionalUnit.add {T : Type} (coeff : T → ℚ)
    (x y : ProportionalUnit T) : ProportionalUnit T :=
  { value := (y.convert coeff x.unit).value + x.value, unit := x.unit }

/-- impl Sub for ProportionalUnit (src/units.rs lines 445-453), embedded
exactly as written: the right-hand operand is converted into the left
operand's unit, and the stored value is other.value - self.value. -/
def ProportionalUnit.sub {T : Type} (coeff : T → ℚ)
    (x y : ProportionalUnit T) : ProportionalUnit T :=
  { value := (y.convert coeff x.unit).value - x.value, unit := x.unit }

/-- TemperatureUnit enum from src/units.rs. -/
inductive TemperatureUnit where
  | Kelvin
  | Fahrenheit
  | Celsius
deriving DecidableEq, Repr

/-- Temperature struct from src/units.rs (the affine family). -/
structure Temperature where
  value : ℚ
  unit : TemperatureUnit
deriving DecidableEq, Repr

/-- First half of Temperature::convert in src/units.rs: the value of a
temperature in Kelvin. -/
def toKelvin : TemperatureUnit → ℚ → ℚ
  | TemperatureUnit.Kelvin, v => v
  | TemperatureUnit.Celsius, v => v + 273.15
  | TemperatureUnit.Fahrenheit, v => (v + 459.67) * (5 / 9)

/-- Second half of Temperature::convert in src/units.rs: from Kelvin
into the target unit. -/
def fromKelvin : TemperatureUnit → ℚ → ℚ
  | TemperatureUnit.Kelvin, k => k
  | TemperatureUnit.Celsius, k => k - 273.15
  | TemperatureUnit.Fahrenheit, k => k * (9 / 5) - 459.67

/-- Temperature::convert from src/units.rs: always pivots through
Kelvin. -/
def Temperature.convert (x : Temperature) (u : TemperatureUnit) : Temperature :=
  { value := fromKelvin u (toKelvin x.unit x.value), unit := u }

/-- value_in for Temperature: convert, then read the value. -/
def Temperature.valueIn (x : Temperature) (u : TemperatureUnit) : ℚ :=
  (x.convert u).value

/-- Direction struct from src/units.rs: quantized degrees. -/
structure Direction where
  degrees : ℕ
deriving DecidableEq, Repr

/-- Direction::sanitize_degrees from src/units.rs: fail (bail!) above
360; round a value not divisible by 10 to the nearest multiple of 10
with ((d + 5) / 10) * 10 in integer arithmetic; reduce modulo 360. -/
def sanitizeDegrees (d : ℕ) : Option ℕ :=
  if 360 < d then
    none
  else if d % 10 ≠ 0 then
    some ((d + 5) / 10 * 10 % 360)
  else
    some (d % 360)

/-- Direction::from_degrees from src/units.rs. -/
def Direction.fromDegrees (d : ℕ) : Option Direction :=
  (sanitizeDegrees d).map Direction.mk

-- ======================================================================
-- Helper lemmas for the unit-system claims
-- ======================================================================

theorem toKelvin_fromKelvin (u : TemperatureUnit) (k : ℚ) :
    toKelvin u (fromKelvin u k) = k := by
  cases u <;> simp only [toKelvin, fromKelvin] <;> ring

theorem fromKelvin_toKelvin (u : TemperatureUnit) (v : ℚ) :
    fromKelvin u (toKelvin u v) = v := by
  cases u <;> simp only [toKelvin, fromKelvin] <;> ring

/-- C9 (claim theorem).  Unit conversion never fails (it is a total
function in the embedding), and round-trips: for any proportional family
with strictly positive coefficients, converting a quantity to a unit A,
then to a unit B, then back to its original unit reproduces it exactly;
the same holds for the affine temperature family, whose conversion
pivots through Kelvin.  The six concrete proportional families of
src/units.rs all have strictly positive coefficients. -/
theorem convert_roundTrip :
    (∀ (T : Type) (coeff : T → ℚ), (∀ u, 0 < coeff u) →
      ∀ (x : ProportionalUnit T) (A B : T),
        ((x.convert coeff A).convert coeff B).convert coeff x.unit = x) ∧
    (∀ (x : Temperature) (A B : TemperatureUnit),
      ((x.convert A).convert B).convert x.unit = x) ∧
    (∀ u, 0 < speedCoeff u) ∧ (∀ u, 0 < pressureCoeff u) ∧
    (∀ u, 0 < distanceCoeff u) ∧ (∀ u, 0 < precipCoeff u) ∧
    (∀ u, 0 < fractionalCoeff u) ∧ (∀ u, 0 < specEnergyCoeff u) := by
  refine ⟨?_, ?_, ?_, ?_, ?_, ?_, ?_, ?_⟩
  · intro T coeff hpos x A B
    have hA := (hpos A).ne'
    have hB := (hpos B).ne'
    have hx := (hpos x.unit).ne'
    cases x with
    | mk v u =>
      simp only [ProportionalUnit.convert]
      congr 1
      field_simp
  · intro x A B
    cases x with
    | mk v u =>
      simp [Temperature.convert, toKelvin_fromKelvin, fromKelvin_toKelvin]
  · intro u; cases u <;> norm_num [speedCoeff]
  · intro u; cases u <;> norm_num [pressureCoeff]
  · intro u; cases u <;> norm_num [distanceCoeff]
  · intro u; cases u <;> norm_num [precipCoeff]
  · intro u; cases u <;> norm_num [fractionalCoeff]
  · intro u; cases u <;> norm_num [specEnergyCoeff]

/-- C9 witness: the round-trip theorem applied to a concrete distance
quantity (7 mi converted to meters, then feet, then back to miles) and
with the positivity hypothesis discharged on the concrete distance
coefficient table. -/
theorem convert_roundTrip_witness :
    (∀ u, 0 < distanceCoeff u) ∧
    ((ProportionalUnit.convert distanceCoeff
        ((ProportionalUnit.convert distanceCoeff
            ⟨7, DistanceUnit.Mile⟩ DistanceUnit.Meter).convert distanceCoeff
          DistanceUnit.Feet) DistanceUnit.Mile) = ⟨7, DistanceUnit.Mile⟩) := by
  have hpos : ∀ u, 0 < distanceCoeff u := convert_roundTrip.2.2.2.2.1
  exact ⟨hpos, convert_roundTrip.1 DistanceUnit distanceCoeff hpos
    ⟨7, DistanceUnit.Mile⟩ DistanceUnit.Meter DistanceUnit.Feet⟩

/-- C7 (claim theorem).  Direction::from_degrees fails exactly on inputs
above 360; otherwise it stores the input rounded to the nearest multiple
of 10 (ties rounding up) and reduced modulo 360, which is a multiple of
10 in [0, 350].  The rounded value r = (d + 5) / 10 * 10 is a multiple
of 10 at distance at most 5 above and at most 4 below the input, which
is exactly nearest-multiple-of-10 rounding with ties upward. -/
theorem direction_fromDegrees_spec (d : ℕ) :
    (360 < d → Direction.fromDegrees d = none) ∧
    (d ≤ 360 →
      Direction.fromDegrees d = some ⟨(d + 5) / 10 * 10 % 360⟩ ∧
      (d + 5) / 10 * 10 % 360 % 10 = 0 ∧
      (d + 5) / 10 * 10 % 360 ≤ 350 ∧
      (d + 5) / 10 * 10 % 10 = 0 ∧
      (d + 5) / 10 * 10 ≤ d + 5 ∧
      d ≤ (d + 5) / 10 * 10 + 4) := by
  constructor
  · intro h
    simp [Direction.fromDegrees, sanitizeDegrees, h]
  · intro h
    have h360 : ¬ 360 < d := by omega
    refine ⟨?_, by omega, by omega, by omega, by omega, by omega⟩
    by_cases h10 : d % 10 = 0
    · have hd : d % 360 = (d + 5) / 10 * 10 % 360 := by omega
      simp [Direction.fromDegrees, sanitizeDegrees, h360, h10, hd]
    · simp [Direction.fromDegrees, sanitizeDegrees, h360, h10]

/-- C7 witness: the specification applied at the concrete inputs 361
(construction fails) and 27 (rounds up to 30). -/
theorem direction_fromDegrees_spec_witness :
    (360 < 361 ∧ Direction.fromDegrees 361 = none) ∧
    (27 ≤ 360 ∧ Direction.fromDegrees 27 = some ⟨30⟩) :=
  ⟨⟨by norm_num, (direction_fromDegrees_spec 361).1 (by norm_num)⟩,
   ⟨by norm_num, ((direction_fromDegrees_spec 27).2 (by norm_num)).1⟩⟩

-- ======================================================================
-- Layer of src/wxentry/components.rs and its height_agl
-- ======================================================================

/-- Layer enum from src/wxentry/components.rs. -/
inductive Layer where
  | All
  | Indoor
  | NearSurface
  | SeaLevel
  | AGL (h : ℕ)
  | MSL (h : ℕ)
  | MBAR (p : ℕ)
deriving DecidableEq, Repr

/-- Altitude quantities are proportional distance quantities. -/
abbrev Altitude := ProportionalUnit DistanceUnit

/-- Mul<f32> for ProportionalUnit from src/units.rs: scale the value,
keep the unit. -/
def ProportionalUnit.scale {T : Type} (x : ProportionalUnit T) (r : ℚ) :
    ProportionalUnit T :=
  { value := x.value * r, unit := x.unit }

/-- Layer::height_agl from src/wxentry/components.rs (lines 127-139).
The All arm returns Altitude::new(f32::NAN, Meter) in the source; NaN
has no rational counterpart, so that arm (which no claim touches) is
modelled as none alongside the MBAR arm's None. -/
def Layer.heightAgl (l : Layer) (stationAltitude : Altitude) : Option Altitude :=
  match l with
  | Layer.All => none
  | Layer.Indoor => some ⟨1, DistanceUnit.Meter⟩
  | Layer.NearSurface => some ⟨2, DistanceUnit.Meter⟩
  | Layer.SeaLevel => some (stationAltitude.scale (-1))
  | Layer.AGL a => some ⟨(a : ℚ), DistanceUnit.Meter⟩
  | Layer.MSL a =>
      some (ProportionalUnit.sub distanceCoeff ⟨(a : ℚ), DistanceUnit.Meter⟩
        stationAltitude)
  | Layer.MBAR _ => none

/-- C2 (claim theorem, refuting the claim).  The Sub implementation for
proportional quantities returns the right-hand operand (converted into
the left unit) minus the left operand: 5 m - 2 m evaluates to -3 m, not
the 3 m the claim requires.  Consequently Layer::height_agl for an MSL
layer at 100 m over a 30 m station returns -70 m where the height above
ground is 70 m. -/
theorem sub_reversed :
    ProportionalUnit.sub distanceCoeff ⟨5, DistanceUnit.Meter⟩
        ⟨2, DistanceUnit.Meter⟩ = ⟨-3, DistanceUnit.Meter⟩ ∧
    (5 : ℚ) - 2 = 3 ∧ (-3 : ℚ) ≠ 3 ∧
    Layer.heightAgl (Layer.MSL 100) ⟨30, DistanceUnit.Meter⟩
      = some ⟨-70, DistanceUnit.Meter⟩ ∧
    (100 : ℚ) - 30 = 70 := by
  refine ⟨?_, by norm_num, by norm_num, ?_, by norm_num⟩
  · simp only [ProportionalUnit.sub, ProportionalUnit.convert]
    norm_num [distanceCoeff]
  · simp only [Layer.heightAgl, ProportionalUnit.sub, ProportionalUnit.convert]
    norm_num [distanceCoeff]

-- ======================================================================
-- Present-weather model (src/wxentry/components.rs)
-- ======================================================================

/-- Intensity enum from src/wxentry/components.rs, in declaration order
None < Nearby < VeryLight < Light < Medium < Heavy.  The None variant is
written NoneI to avoid clashing with Option.none. -/
inductive Intensity where
  | NoneI
  | Nearby
  | VeryLight
  | Light
  | Medium
  | Heavy
deriving DecidableEq, Repr

/-- Rank of an intensity in declaration order; the derived PartialOrd of
the Rust enum compares these ranks. -/
def Intensity.rank : Intensity → ℕ
  | Intensity.NoneI => 0
  | Intensity.Nearby => 1
  | Intensity.VeryLight => 2
  | Intensity.Light => 3
  | Intensity.Medium => 4
  | Intensity.Heavy => 5

/-- Intensity::most_intense from src/wxentry/components.rs: keep self
when it is strictly greater, otherwise the other. -/
def Intensity.mostIntense (a b : Intensity) : Intensity :=
  if b.rank < a.rank then a else b

/-- Wx struct from src/wxentry/components.rs: qualifier flags plus one
intensity per precipitation/obscuration category. -/
structure Wx where
  blowing : Bool
  freezing : Bool
  showers : Bool
  squalls : Bool
  thunderstorm : Bool
  fog : Bool
  smoke : Bool
  visibilityInhibitor : Bool
  rain : Intensity
  snow : Intensity
  fallingIce : Intensity
  dust : Intensity
  sand : Intensity
  funnelCloud : Intensity
  unknown : Intensity
deriving DecidableEq, Repr

/-- Wx::none from src/wxentry/components.rs. -/
def Wx.noWx : Wx :=
  { blowing := false, freezing := false, showers := false, squalls := false
    thunderstorm := false, fog := false, smoke := false
    visibilityInhibitor := false
    rain := Intensity.NoneI, snow := Intensity.NoneI
    fallingIce := Intensity.NoneI, dust := Intensity.NoneI
    sand := Intensity.NoneI, funnelCloud := Intensity.NoneI
    unknown := Intensity.NoneI }

/-- Wx::combine from src/wxentry/components.rs: boolean OR on the
qualifier flags and most_intense per category. -/
def Wx.combine (a b : Wx) : Wx :=
  { blowing := a.blowing || b.blowing
    freezing := a.freezing || b.freezing
    showers := a.showers || b.showers
    squalls := a.squalls || b.squalls
    thunderstorm := a.thunderstorm || b.thunderstorm
    fog := a.fog || b.fog
    smoke := a.smoke || b.smoke
    visibilityInhibitor := a.visibilityInhibitor || b.visibilityInhibitor
    rain := a.rain.mostIntense b.rain
    snow := a.snow.mostIntense b.snow
    fallingIce := a.fallingIce.mostIntense b.fallingIce
    dust := a.dust.mostIntense b.dust
    sand := a.sand.mostIntense b.sand
    funnelCloud := a.funnelCloud.mostIntense b.funnelCloud
    unknown := a.unknown.mostIntense b.unknown }

theorem mostIntense_comm (a b : Intensity) :
    a.mostIntense b = b.mostIntense a := by
  cases a <;> cases b <;> rfl

theorem mostIntense_assoc (a b c : Intensity) :
    (a.mostIntense b).mostIntense c = a.mostIntense (b.mostIntense c) := by
  cases a <;> cases b <;> cases c <;> rfl

theorem mostIntense_idem (a : Intensity) : a.mostIntense a = a := by
  cases a <;> rfl

/-- C8 (claim theorem).  Present-weather combination is commutative,
associative and idempotent: boolean OR on the qualifier flags and the
more intense value per category under the declaration ordering
None < Nearby < VeryLight < Light < Medium < Heavy. -/
theorem wx_combine_comm_assoc_idem :
    (∀ a b : Wx, a.combine b = b.combine a) ∧
    (∀ a b c : Wx, (a.combine b).combine c = a.combine (b.combine c)) ∧
    (∀ a : Wx, a.combine a = a) := by
  refine ⟨fun a b => ?_, fun a b c => ?_, fun a => ?_⟩
  · simp only [Wx.combine, Bool.or_comm, mostIntense_comm]
  · simp only [Wx.combine, Bool.or_assoc, mostIntense_assoc]
  · simp only [Wx.combine, Bool.or_self, mostIntense_idem]

-- ======================================================================
-- Present-weather code parser (Wx::parse_code, src/wxentry/components.rs)
-- ======================================================================

/-- The literal alternatives of the regex in Wx::parse_code, in the
regex's alternation order (the regex crate uses leftmost-first match
semantics, so at each position the earliest alternative that matches is
taken).  The final alternative, a nonempty run of slashes, is handled
separately in nextToken. -/
def wxTokenAlternatives : List (List Char) :=
  [['-'], ['+'],
   ['B','C'], ['B','L'], ['B','R'], ['D','R'], ['D','S'], ['D','U'],
   ['D','Z'], ['F','C'], ['F','G'], ['F','U'], ['F','Z'], ['G','R'],
   ['G','S'], ['H','Z'], ['I','C'], ['M','I'], ['N','S','W'],
   ['P','L'], ['P','O'], ['P','R'], ['P','Y'], ['R','A'], ['S','A'],
   ['S','G'], ['S','H'], ['S','N'], ['S','Q'], ['S','S'], ['T','S'],
   ['U','P'], ['V','A'], ['V','C']]

/-- The token, if any, matched by the parse_code regex at the start of
the input. -/
def nextToken (s : List Char) : Option (List Char) :=
  match wxTokenAlternatives.find? (fun t => t.isPrefixOf s) with
  | some t => some t
  | none =>
    match s with
    | '/' :: _ => some (s.takeWhile (fun c => c = '/'))
    | _ => none

/-- Regex::find_iter over the parse_code regex: scan left to right,
taking non-overlapping matches and resuming after each one.  The fuel
argument bounds the scan; each step consumes at least one character, so
fuel equal to the input length (as supplied by wxMatches) is always
sufficient. -/
def findTokenMatches : ℕ → List Char → List (List Char)
  | 0, _ => []
  | _ + 1, [] => []
  | fuel + 1, c :: rest =>
    match nextToken (c :: rest) with
    | some t => t :: findTokenMatches fuel ((c :: rest).drop t.length)
    | none => findTokenMatches fuel rest

/-- The match list of the parse_code regex on an input string. -/
def wxMatches (s : List Char) : List (List Char) :=
  findTokenMatches s.length s

/-- The general intensity resolved in Wx::parse_code: VC means Nearby,
else - means Light, else + means Heavy, else Medium. -/
def generalIntensity (m : List (List Char)) : Intensity :=
  if ['V','C'] ∈ m then Intensity.Nearby
  else if ['-'] ∈ m then Intensity.Light
  else if ['+'] ∈ m then Intensity.Heavy
  else Intensity.Medium

/-- Wx::parse_code from src/wxentry/components.rs (lines 345-416).  The
source mutates a Wx::none record field by field; each field below is the
final value of that sequence of assignments.  Note the source's second
sand assignment: the arm that checks GR (inside the falling-ice branch)
writes wx.sand = Heavy, overwriting the earlier sand assignment; that
behaviour is kept as written. -/
def Wx.parseCode (s : List Char) : Wx :=
  let m := wxMatches s
  let gi := generalIntensity m
  { blowing := decide (['B','L'] ∈ m) || decide (['S','S'] ∈ m) ||
      decide (['P','O'] ∈ m) || decide (['D','S'] ∈ m)
    freezing := decide (['F','Z'] ∈ m)
    showers := decide (['S','H'] ∈ m)
    squalls := decide (['S','Q'] ∈ m)
    thunderstorm := decide (['T','S'] ∈ m)
    fog := decide (['B','R'] ∈ m) || decide (['F','G'] ∈ m)
    smoke := decide (['F','U'] ∈ m) || decide (['H','Z'] ∈ m)
    visibilityInhibitor := false
    rain :=
      if ['R','A'] ∈ m then gi
      else if ['D','Z'] ∈ m then Intensity.VeryLight
      else Intensity.NoneI
    dust :=
      if ['D','U'] ∈ m then gi
      else if ['D','S'] ∈ m then Intensity.Heavy
      else Intensity.NoneI
    sand :=
      if ¬ ['P','L'] ∈ m ∧ ['G','R'] ∈ m then Intensity.Heavy
      else if ['S','A'] ∈ m ∨ ['P','O'] ∈ m then gi
      else if ['S','S'] ∈ m then Intensity.Heavy
      else Intensity.NoneI
    fallingIce := if ['P','L'] ∈ m then gi else Intensity.NoneI
    snow :=
      if ['S','N'] ∈ m ∨ ['G','S'] ∈ m ∨ ['I','C'] ∈ m ∨ ['S','G'] ∈ m
      then gi else Intensity.NoneI
    funnelCloud := if ['F','C'] ∈ m then gi else Intensity.NoneI
    unknown := if ['U','P'] ∈ m then gi else Intensity.NoneI }

/-- C6 counterexample: the code string RADZ contains the drizzle token
DZ (the regex matches RA then DZ), yet parse_code assigns the rain
category the general intensity Medium, not VeryLight, because the RA
branch takes priority. -/
theorem parseCode_drizzle_counterexample :
    (Wx.parseCode ['R','A','D','Z']).rain = Intensity.Medium ∧
    wxMatches ['R','A','D','Z'] = [['R','A'], ['D','Z']] ∧
    Intensity.Medium ≠ Intensity.VeryLight := by
  refine ⟨by decide, by decide, by decide⟩

/-- C6 (claim theorem, amended).  On any code string whose regex match
list contains the drizzle token DZ but not the rain token RA, parse_code
assigns rain intensity VeryLight regardless of the general intensity
resolved from the VC, - and + markers. -/
theorem parseCode_drizzle_veryLight (s : List Char)
    (hdz : ['D','Z'] ∈ wxMatches s) (hra : ['R','A'] ∉ wxMatches s) :
    (Wx.parseCode s).rain = Intensity.VeryLight := by
  simp only [Wx.parseCode]
  rw [if_neg hra, if_pos hdz]

/-- C6 witness: the amended theorem applied to the concrete code FZDZ
(freezing drizzle), whose match list contains DZ and not RA. -/
theorem parseCode_drizzle_veryLight_witness :
    (['D','Z'] ∈ wxMatches ['F','Z','D','Z'] ∧
      ['R','A'] ∉ wxMatches ['F','Z','D','Z']) ∧
    (Wx.parseCode ['F','Z','D','Z']).rain = Intensity.VeryLight :=
  ⟨⟨by decide, by decide⟩,
    parseCode_drizzle_veryLight ['F','Z','D','Z'] (by decide) (by decide)⟩

-- ======================================================================
-- Per-layer capability trait defaults (src/wxentry.rs, trait WxEntryLayer)
-- ======================================================================

/-- Speed quantities. -/
abbrev Speed := ProportionalUnit SpeedUnit

/-- Pressure quantities. -/
abbrev Pressure := ProportionalUnit PressureUnit

/-- Fractional quantities. -/
abbrev Fraction := ProportionalUnit FractionalUnit

/-- Distance quantities. -/
abbrev Distance := ProportionalUnit DistanceUnit

/-- The f32 transcendental intrinsics used by the source (powf, exp,
log10 on f32, cos, and the constant PI), embedded as uninterpreted
rational functions.  No claim in scope depends on their values. -/
structure FloatOps where
  powf : ℚ → ℚ → ℚ
  exp : ℚ → ℚ
  pow10 : ℚ → ℚ
  log10 : ℚ → ℚ
  cos : ℚ → ℚ
  pi : ℚ

/-- A per-layer view: the results of the overridable accessor methods
of trait WxEntryLayer (src/wxentry.rs) that the derived methods
wind_chill_valid, wind_chill, heat_index_valid, heat_index and
apparent_temp consume.  Quantifying over this record covers every
backing that implements the trait without overriding those derived
methods. -/
structure LayerView where
  temperature : Option Temperature
  windSpeed : Option Speed
  relativeHumidity : Option Fraction

/-- wind_chill_valid from src/wxentry.rs (lines 191-199): none on
incomplete data; some true iff temperature < 50 °F and wind > 3 mph;
some false when temperature ≥ 50 °F regardless of wind. -/
def windChillValid (l : LayerView) : Option Bool :=
  match l.temperature with
  | none => none
  | some tq =>
    if tq.valueIn TemperatureUnit.Fahrenheit < 50 then
      match l.windSpeed with
      | none => none
      | some w =>
          some (decide (3 < w.valueIn speedCoeff SpeedUnit.Mph))
    else some false

/-- wind_chill from src/wxentry.rs (lines 201-213): the NWS quartic
wind-chill regression, computed only when wind_chill_valid is
determinately true. -/
def windChill (F : FloatOps) (l : LayerView) : Option Temperature :=
  match l.windSpeed with
  | none => none
  | some w =>
    match l.temperature with
    | none => none
    | some tq =>
      let mph := w.valueIn speedCoeff SpeedUnit.Mph
      let t := tq.valueIn TemperatureUnit.Fahrenheit
      if windChillValid l = some true then
        let v := F.powf mph 0.16
        some ⟨35.74 + 0.6215 * t - 35.75 * v + 0.4275 * t * v,
          TemperatureUnit.Fahrenheit⟩
      else none

/-- heat_index_valid from src/wxentry.rs (lines 218-227): none on
incomplete data; some true iff temperature > 80 °F and relative
humidity > 40 %; some false when temperature ≤ 80 °F. -/
def heatIndexValid (l : LayerView) : Option Bool :=
  match l.temperature with
  | none => none
  | some tq =>
    if 80 < tq.valueIn TemperatureUnit.Fahrenheit then
      match l.relativeHumidity with
      | none => none
      | some rh =>
          some (decide (40 < rh.valueIn fractionalCoeff FractionalUnit.Percent))
    else some false

/-- heat_index from src/wxentry.rs (lines 230-242): the Rothfusz
regression, computed only when heat_index_valid is determinately
true. -/
def heatIndex (l : LayerView) : Option Temperature :=
  match l.temperature with
  | none => none
  | some tq =>
    match l.relativeHumidity with
    | none => none
    | some rhq =>
      let t := tq.valueIn TemperatureUnit.Fahrenheit
      let rh := rhq.valueIn fractionalCoeff FractionalUnit.Percent
      if heatIndexValid l = some true then
        some ⟨(-42.379) + 2.04901523 * t + 10.14333127 * rh
            + (-0.22475541) * t * rh + (-0.00683783) * t * t
            + (-0.05481717) * rh * rh + 0.00122874 * t * t * rh
            + 0.00085282 * t * rh * rh + (-0.00000199) * t * t * rh * rh,
          TemperatureUnit.Fahrenheit⟩
      else none

/-- apparent_temp from src/wxentry.rs (lines 244-255): requires a
temperature, then selects by the validity pair exactly as the source
match does, arm by arm in order. -/
def apparentTemp (F : FloatOps) (l : LayerView) : Option Temperature :=
  match l.temperature with
  | none => none
  | some _ =>
    match heatIndexValid l, windChillValid l with
    | some true, _ => heatIndex l
    | _, some true => windChill F l
    | some false, some false => l.temperature
    | _, _ => none

/-- The concrete test layer with temperature 51 °F and no wind. -/
def layer51 : LayerView :=
  ⟨some ⟨51, TemperatureUnit.Fahrenheit⟩, none, none⟩

/-- The concrete test layer with temperature 49 °F and no wind. -/
def layer49 : LayerView :=
  ⟨some ⟨49, TemperatureUnit.Fahrenheit⟩, none, none⟩

/-- The concrete test layer with temperature 49 °F and a 2 mph wind. -/
def layer49wind : LayerView :=
  ⟨some ⟨49, TemperatureUnit.Fahrenheit⟩, some ⟨2, SpeedUnit.Mph⟩, none⟩

/-- Simp set unfolding the value conversions used in the validity
checks. -/
theorem temperature_valueIn_f (v : ℚ) :
    Temperature.valueIn ⟨v, TemperatureUnit.Fahrenheit⟩
      TemperatureUnit.Fahrenheit = v := by
  simp only [Temperature.valueIn, Temperature.convert, toKelvin, fromKelvin]
  ring

theorem hiv_layer51 : heatIndexValid layer51 = some false := by
  norm_num [heatIndexValid, layer51, temperature_valueIn_f]

theorem wcv_layer51 : windChillValid layer51 = some false := by
  norm_num [windChillValid, layer51, temperature_valueIn_f]

theorem hiv_layer49 : heatIndexValid layer49 = some false := by
  norm_num [heatIndexValid, layer49, temperature_valueIn_f]

theorem wcv_layer49 : windChillValid layer49 = none := by
  norm_num [windChillValid, layer49, temperature_valueIn_f]

theorem hiv_layer49wind : heatIndexValid layer49wind = some false := by
  norm_num [heatIndexValid, layer49wind, temperature_valueIn_f]

theorem wcv_layer49wind : windChillValid layer49wind = some false := by
  norm_num [windChillValid, layer49wind, temperature_valueIn_f,
    ProportionalUnit.valueIn, ProportionalUnit.convert, speedCoeff]

/-- C4 (claim theorem).  apparent_temp implements the four-way selection
policy: heat index when its validity is determinately true; otherwise
wind chill when its validity is determinately true; otherwise the raw
temperature when both validities are determinately false; otherwise
(some validity indeterminate) absent.  Concretely: 51 °F with no wind
gives 51 °F, 49 °F with no wind gives absent, and 49 °F with a 2 mph
wind gives 49 °F. -/
theorem apparentTemp_policy :
    (∀ (F : FloatOps) (l : LayerView), heatIndexValid l = some true →
      apparentTemp F l = heatIndex l) ∧
    (∀ (F : FloatOps) (l : LayerView), heatIndexValid l ≠ some true →
      windChillValid l = some true → apparentTemp F l = windChill F l) ∧
    (∀ (F : FloatOps) (l : LayerView), heatIndexValid l = some false →
      windChillValid l = some false → apparentTemp F l = l.temperature) ∧
    (∀ (F : FloatOps) (l : LayerView), heatIndexValid l ≠ some true →
      windChillValid l ≠ some true →
      (heatIndexValid l = none ∨ windChillValid l = none) →
      apparentTemp F l = none) ∧
    (∀ F : FloatOps,
      apparentTemp F layer51 = some ⟨51, TemperatureUnit.Fahrenheit⟩ ∧
      apparentTemp F layer49 = none ∧
      apparentTemp F layer49wind = some ⟨49, TemperatureUnit.Fahrenheit⟩) := by
  have policy3 : ∀ (F : FloatOps) (l : LayerView),
      heatIndexValid l = some false → windChillValid l = some false →
      apparentTemp F l = l.temperature := by
    intro F l hH hW
    rcases hT : l.temperature with _ | tq
    · exfalso; rw [heatIndexValid, hT] at hH; exact Option.noConfusion hH
    · simp only [apparentTemp, hT]
      rw [hH, hW]
  have policy4 : ∀ (F : FloatOps) (l : LayerView),
      heatIndexValid l ≠ some true → windChillValid l ≠ some true →
      (heatIndexValid l = none ∨ windChillValid l = none) →
      apparentTemp F l = none := by
    intro F l h1 h2 h3
    rcases hT : l.temperature with _ | tq
    · simp only [apparentTemp, hT]
    · simp only [apparentTemp, hT]
      rcases h3 with h | h
      · rw [h]
        rcases hW : windChillValid l with _ | b
        · rfl
        · cases b
          · rfl
          · exact absurd hW h2
      · rw [h]
        rcases hH : heatIndexValid l with _ | b
        · rfl
        · cases b
          · rfl
          · exact absurd hH h1
  refine ⟨?_, ?_, policy3, policy4, ?_⟩
  · intro F l h
    rcases hT : l.temperature with _ | tq
    · exfalso; rw [heatIndexValid, hT] at h; exact Option.noConfusion h
    · simp only [apparentTemp, hT]
      rw [h]
      rcases windChillValid l with _ | b
      · rfl
      · cases b <;> rfl
  · intro F l hne h
    rcases hT : l.temperature with _ | tq
    · exfalso; rw [windChillValid, hT] at h; exact Option.noConfusion h
    · simp only [apparentTemp, hT]
      rw [h]
      rcases hH : heatIndexValid l with _ | b
      · rfl
      · cases b
        · rfl
        · exact absurd hH hne
  · intro F
    refine ⟨?_, ?_, ?_⟩
    · rw [policy3 F layer51 hiv_layer51 wcv_layer51]; rfl
    · refine policy4 F layer49 ?_ ?_ (Or.inr wcv_layer49)
      · rw [hiv_layer49]; simp
      · rw [wcv_layer49]; simp
    · rw [policy3 F layer49wind hiv_layer49wind wcv_layer49wind]; rfl

/-- C4 witness: the policy theorem applied at the concrete 51 °F layer,
where both validities are determinately false and the raw temperature
is returned. -/
theorem apparentTemp_policy_witness :
    (heatIndexValid layer51 = some false ∧
      windChillValid layer51 = some false) ∧
    apparentTemp (FloatOps.mk (fun _ _ => 0) (fun _ => 0) (fun _ => 0)
      (fun _ => 0) (fun _ => 0) 0) layer51 = layer51.temperature :=
  ⟨⟨hiv_layer51, wcv_layer51⟩,
    apparentTemp_policy.2.2.1
      (FloatOps.mk (fun _ _ => 0) (fun _ => 0) (fun _ => 0)
        (fun _ => 0) (fun _ => 0) 0) layer51 hiv_layer51 wcv_layer51⟩

-- ======================================================================
-- Sparse dynamically-typed backing (src/wxentry/hashmap.rs)
-- ======================================================================

/-- Param enum from src/wxentry/components.rs. -/
inductive Param where
  | Temperature
  | Pressure
  | Visibility
  | Dewpoint
  | RelativeHumidity
  | WindSpeed
  | WindDirection
  | Wind
  | SkyCover
  | WxCodes
  | RawMetar
  | PrecipToday
  | Precip
  | Altimeter
  | Cape
deriving DecidableEq, Repr

/-- The type-erased cell of HashMapWx (Box of dyn Any in the source),
modelled as the closed tagged union over the attribute payload types the
typed accessors retrieve; downcast_ref of the wrong type fails softly
exactly as matching the wrong constructor does below. -/
inductive DynVal where
  | vTemperature (t : Temperature)
  | vPressure (p : Pressure)
  | vDistance (d : Distance)
  | vFraction (f : Fraction)
  | vSpeed (s : Speed)
  | vDirection (d : Direction)

/-- HashMapWx from src/wxentry/hashmap.rs: a mapping from
(Layer, Param) pairs to type-erased values.  The date_time and station
fields play no role in any claim and are omitted. -/
structure HashMapWx where
  data : Layer × Param → Option DynVal

/-- LayerHash from src/wxentry/hashmap.rs: a layer tag plus a reference
to the backing store. -/
structure LayerHash where
  layer : Layer
  data : HashMapWx

/-- HashMapWx::layer from src/wxentry/hashmap.rs (line 19): always
Some(LayerHash { layer, data: self }), for every layer tag. -/
def HashMapWx.layer (h : HashMapWx) (l : Layer) : Option LayerHash :=
  some ⟨l, h⟩

/-- Typed retrieval of a temperature (LayerHash::get expecting a
Temperature): absent on a missing key or on a type mismatch. -/
def LayerHash.temperature (v : LayerHash) : Option Temperature :=
  match v.data.data (v.layer, Param.Temperature) with
  | some (DynVal.vTemperature t) => some t
  | _ => none

/-- Typed retrieval of a pressure. -/
def LayerHash.pressure (v : LayerHash) : Option Pressure :=
  match v.data.data (v.layer, Param.Pressure) with
  | some (DynVal.vPressure p) => some p
  | _ => none

/-- Typed retrieval of a visibility distance. -/
def LayerHash.visibility (v : LayerHash) : Option Distance :=
  match v.data.data (v.layer, Param.Visibility) with
  | some (DynVal.vDistance d) => some d
  | _ => none

/-- The HashMapWx in which no attribute was ever stored. -/
def emptyHashMapWx : HashMapWx := ⟨fun _ => none⟩

/-- C10 (claim theorem).  On the sparse dynamically-typed backing the
per-layer lookup returns a view for every layer tag -- including tags
for which nothing was ever stored -- so the lookup itself is never
absent; missing data surfaces only as absent individual accessors on
the returned view, as the empty store shows. -/
theorem hashMapWx_layer_total :
    (∀ (h : HashMapWx) (l : Layer), h.layer l = some ⟨l, h⟩) ∧
    (∀ l : Layer,
      (emptyHashMapWx.layer l).isSome = true ∧
      LayerHash.temperature ⟨l, emptyHashMapWx⟩ = none ∧
      LayerHash.pressure ⟨l, emptyHashMapWx⟩ = none ∧
      LayerHash.visibility ⟨l, emptyHashMapWx⟩ = none) :=
  ⟨fun _ _ => rfl, fun _ => ⟨rfl, rfl, rfl, rfl⟩⟩

-- ======================================================================
-- Per-observation trait defaults: best_slp (src/wxentry.rs)
-- ======================================================================

/-- Layer enum from src/wxentry.rs (lines 304-313); unlike the
components.rs Layer, its MBAR variant also stores a geopotential
height. -/
inductive LayerW where
  | All
  | Indoor
  | NearSurface
  | SeaLevel
  | AGL (h : ℕ)
  | MSL (h : ℕ)
  | MBAR (p h : ℕ)
deriving DecidableEq, Repr

/-- Layer::height_agl from src/wxentry.rs (lines 334-346).  The All arm
returns Altitude::new(f32::NAN, Meter) in the source; NaN has no
rational counterpart, so that arm (which no claim touches) is modelled
as none; every other arm is total as in the source. -/
def LayerW.heightAgl (l : LayerW) (stationAltitude : Altitude) : Option Altitude :=
  match l with
  | LayerW.All => none
  | LayerW.Indoor => some ⟨1, DistanceUnit.Meter⟩
  | LayerW.NearSurface => some ⟨2, DistanceUnit.Meter⟩
  | LayerW.SeaLevel => some (stationAltitude.scale (-1))
  | LayerW.AGL a => some ⟨(a : ℚ), DistanceUnit.Meter⟩
  | LayerW.MSL a =>
      some (ProportionalUnit.sub distanceCoeff ⟨(a : ℚ), DistanceUnit.Meter⟩
        stationAltitude)
  | LayerW.MBAR _ a => some ⟨(a : ℚ), DistanceUnit.Meter⟩

/-- The default methods height_agl and height_msl of trait WxEntryLayer
(src/wxentry.rs lines 150-156) call each other with no base case:
height_agl evaluates self.height_msl() to pass it to
Layer::height_agl, and height_msl evaluates self.height_agl() and adds
the station altitude.  This fuel-indexed unfolding makes the recursion
explicit: the true argument is height_agl, the false argument is
height_msl, and none means the recursion has not produced a value
within the given fuel. -/
def heightPart : ℕ → Bool → LayerW → Altitude → Option Altitude
  | 0, _, _, _ => none
  | fuel + 1, true, tag, alt =>
      (heightPart fuel false tag alt).bind (fun msl => tag.heightAgl msl)
  | fuel + 1, false, tag, alt =>
      (heightPart fuel true tag alt).map
        (fun agl => ProportionalUnit.add distanceCoeff agl alt)

/-- The mutual recursion of the default height methods never produces a
value, at any fuel: both height_agl and height_msl diverge for every
layer tag and station altitude. -/
theorem heightPart_none (fuel : ℕ) (b : Bool) (tag : LayerW)
    (alt : Altitude) : heightPart fuel b tag alt = none := by
  induction fuel generalizing b with
  | zero => rfl
  | succ n ih => cases b <;> simp [heightPart, ih]

/-- The accessor results of a per-layer view that the default slp
method of trait WxEntryLayer consumes, together with its layer tag. -/
structure LayerSlpView where
  tag : LayerW
  pressure : Option Pressure
  temperature : Option Temperature

/-- The default slp method from src/wxentry.rs (lines 158-186), as a
fuel-indexed function: the outer Option is termination (the
method reads self.height_msl(), which diverges), the inner Option is
the source's own Option result.  The formula body mirrors the source's
corrected reduction with its four multiplicative correction terms. -/
def slpPart (fuel : ℕ) (F : FloatOps) (latitude : ℚ) (stationAlt : Altitude)
    (l : LayerSlpView) : Option (Option Pressure) :=
  match l.pressure with
  | none => some none
  | some pq =>
    match l.temperature with
    | none => some none
    | some tq =>
      (heightPart fuel false l.tag stationAlt).map (fun hq =>
        let p := pq.valueIn pressureCoeff PressureUnit.Mbar
        let t := tq.valueIn TemperatureUnit.Celsius
        let h := hq.valueIn distanceCoeff DistanceUnit.Meter
        let phi := latitude * F.pi / 180
        let columnTemp := t + 0.005 * h / 2
        let e := F.pow10 (7.5 * columnTemp / (237.3 + columnTemp)) * 6.1078
        let term1 := 1 + 0.0037 * columnTemp
        let term2 := 1 / (1 - 0.378 * (e / 1013.25))
        let term3 := 1 / (1 - 0.0026 * F.cos (2 * phi))
        let term4 := 1 + h / 6367324
        let correction := h / (18400 * term1 * term2 * term3 * term4)
        some ⟨F.pow10 (F.log10 p + correction), PressureUnit.Mbar⟩)

/-- f_to_c from src/formulae.rs. -/
def fToC (f : ℚ) : ℚ := (f - 32) * 5 / 9

/-- c_to_k from src/formulae.rs. -/
def cToK (c : ℚ) : ℚ := c + 273.15

/-- f_to_k from src/formulae.rs. -/
def fToK (f : ℚ) : ℚ := cToK (fToC f)

/-- The gas-constant ratio Rd = R / Md from src/formulae.rs. -/
def rdConst : ℚ := 8.314462618 / 28.96546e-3

/-- altimeter_to_station from src/formulae.rs (lines 89-103): inverts
the standard-atmosphere altimeter formula with exponent
n = GAMMA * Rd / g and adds the fixed +0.3 hPa bias. -/
def altimeterToStation (F : FloatOps) (altimeter height : ℚ) : ℚ :=
  let n : ℚ := 6.5e-3 * rdConst / 9.80665
  let firstTerm := F.powf 1013.25 n * 6.5e-3 * height / 288
  F.powf (F.powf altimeter n - firstTerm) (1 / n) + 0.3

/-- altimeter_to_slp from src/formulae.rs (lines 106-111): scale the
station pressure by exp(height / (Rd * T / g)). -/
def altimeterToSlp (F : FloatOps) (altimeter height temperature : ℚ) : ℚ :=
  let h := fToK temperature * rdConst / 9.80665
  let stationPres := altimeterToStation F altimeter height
  stationPres * F.exp (height / h)

/-- The accessor results of a per-observation view that the default
best_slp method of trait WxEntry consumes: the layer lookup, the
altimeter setting, the station altitude and the station latitude. -/
structure EntrySlpView where
  layerF : LayerW → Option LayerSlpView
  altimeter : Option Pressure
  stationAltitude : Altitude
  latitude : ℚ

/-- mslp_from_altimeter from src/wxentry.rs (lines 118-121): requires
the near-surface layer, the altimeter setting and the surface
temperature.  The source passes the unit-typed quantities straight into
formulae::altimeter_to_slp, which takes raw f32s (a type slip in this
snapshot); the model reads each quantity in the unit the formula
documents (mbar, metres, degrees F). -/
def mslpFromAltimeter (F : FloatOps) (e : EntrySlpView) : Option Pressure :=
  match e.layerF LayerW.NearSurface with
  | none => none
  | some surface =>
    match e.altimeter with
    | none => none
    | some alt =>
      surface.temperature.map (fun t =>
        ⟨altimeterToSlp F (alt.valueIn pressureCoeff PressureUnit.Mbar)
            (e.stationAltitude.valueIn distanceCoeff DistanceUnit.Meter)
            (t.valueIn TemperatureUnit.Fahrenheit), PressureUnit.Mbar⟩)

/-- best_slp from src/wxentry.rs (lines 54-61), fuel-indexed: all four
candidate bindings are evaluated eagerly as in the source (divergence
inside the near-surface or indoor slp computation therefore makes the
whole call diverge), then chained with Option::or in priority order:
explicit sea-level pressure, near-surface reduction, indoor reduction,
altimeter-derived sea-level pressure. -/
def bestSlpPart (fuel : ℕ) (F : FloatOps) (e : EntrySlpView) :
    Option (Option Pressure) :=
  let option1 := (e.layerF LayerW.SeaLevel).bind (fun x => x.pressure)
  let option2D :=
    match e.layerF LayerW.NearSurface with
    | none => some none
    | some x => slpPart fuel F e.latitude e.stationAltitude x
  let option3D :=
    match e.layerF LayerW.Indoor with
    | none => some none
    | some x => slpPart fuel F e.latitude e.stationAltitude x
  let option4 := mslpFromAltimeter F e
  option2D.bind (fun option2 =>
    option3D.map (fun option3 =>
      ((option1.or option2).or option3).or option4))

/-- An observation carrying both an explicit sea-level pressure reading
(1013 mbar) and a near-surface layer with pressure and temperature (so
a near-surface reduction is derivable). -/
def entrySlpBoth : EntrySlpView :=
  { layerF := fun tag =>
      match tag with
      | LayerW.SeaLevel =>
          some ⟨LayerW.SeaLevel, some ⟨1013, PressureUnit.Mbar⟩, none⟩
      | LayerW.NearSurface =>
          some ⟨LayerW.NearSurface, some ⟨990, PressureUnit.Mbar⟩,
            some ⟨60, TemperatureUnit.Fahrenheit⟩⟩
      | _ => none
    altimeter := none
    stationAltitude := ⟨30, DistanceUnit.Meter⟩
    latitude := 43 }

/-- C5 (claim theorem, exhibiting the code bug).  On an observation
with both an explicit sea-level reading and a derivable near-surface
reduction, the claim requires best_slp to return the explicit reading;
instead the eager evaluation of the near-surface candidate enters the
baseless mutual recursion of the default height methods, so best_slp
never returns at any fuel. -/
theorem bestSlp_diverges :
    ((entrySlpBoth.layerF LayerW.SeaLevel).bind (fun x => x.pressure)
        = some ⟨1013, PressureUnit.Mbar⟩) ∧
    (∀ (fuel : ℕ) (F : FloatOps), bestSlpPart fuel F entrySlpBoth = none) := by
  refine ⟨rfl, ?_⟩
  intro fuel F
  simp [bestSlpPart, entrySlpBoth, slpPart, heightPart_none]

-- ======================================================================
-- Sky coverage and observation record (src/wxentry/components.rs,
-- src/wxentry/entry_struct.rs)
-- ======================================================================

/-- CloudLayerCoverage enum from src/wxentry/components.rs. -/
inductive CloudLayerCoverage where
  | Few
  | Scattered
  | Broken
  | Overcast
deriving DecidableEq, Repr

/-- CloudLayer struct from src/wxentry/components.rs: a coverage code
plus a height in feet. -/
structure CloudLayer where
  coverage : CloudLayerCoverage
  height : ℕ
deriving DecidableEq, Repr

/-- SkyCoverage enum from src/wxentry/components.rs. -/
inductive SkyCoverage where
  | Clear
  | Cloudy (layers : List CloudLayer)
deriving DecidableEq, Repr

/-- The okta count of one cloud layer, from SkyCoverage::oktas. -/
def CloudLayer.oktas (c : CloudLayer) : ℕ :=
  match c.coverage with
  | CloudLayerCoverage.Few => 1
  | CloudLayerCoverage.Scattered => 3
  | CloudLayerCoverage.Broken => 6
  | CloudLayerCoverage.Overcast => 8

/-- SkyCoverage::oktas from src/wxentry/components.rs: 0 when clear,
else the maximum layer okta count.  The source unwraps the iterator
maximum and so panics on an empty cloud list (unreachable through
CloudLayer::from_code); the fold below returns 0 there instead. -/
def SkyCoverage.oktas : SkyCoverage → ℕ
  | SkyCoverage.Clear => 0
  | SkyCoverage.Cloudy v => v.foldl (fun m c => max m c.oktas) 0

/-- Precipitation amounts. -/
abbrev PrecipAmount := ProportionalUnit PrecipUnit

/-- Specific energy quantities. -/
abbrev SpecEnergy := ProportionalUnit SpecEnergyUnit

/-- Wind struct from src/wxentry/components.rs: optional direction plus
a speed. -/
structure Wind where
  direction : Option Direction
  speed : Speed

/-- Precip struct from src/wxentry/components.rs. -/
structure Precip where
  unknown : PrecipAmount
  rain : PrecipAmount
  snow : PrecipAmount

/-- WxEntryLayerStruct from src/wxentry/entry_struct.rs: the dense
per-layer record backing.  The station reference carries no data any
claim reads and is omitted. -/
structure WxEntryLayerStruct where
  layer : Layer
  temperature : Option Temperature
  pressure : Option Pressure
  visibility : Option Distance
  wind : Option Wind
  dewpoint : Option Temperature
  heightMsl : Option Altitude

/-- The trait default rh_from_dewpoint (src/wxentry.rs lines 279-285)
resolved on the dense record, whose dewpoint accessor is the stored
field: absent unless both temperature and dewpoint are present, else
the Magnus quotient of saturation terms as a decimal fraction. -/
def WxEntryLayerStruct.relativeHumidity (F : FloatOps)
    (l : WxEntryLayerStruct) : Option Fraction :=
  match l.temperature with
  | none => none
  | some tq =>
    match l.dewpoint with
    | none => none
    | some tdq =>
      let t := tq.valueIn TemperatureUnit.Celsius
      let td := tdq.valueIn TemperatureUnit.Celsius
      some ⟨F.exp (17.625 * td / (243.03 + td)) / F.exp (17.625 * t / (243.03 + t)),
        FractionalUnit.Decimal⟩

/-- The accessor record of trait WxEntryLayer as resolved on the dense
record: temperature is the stored field, wind_speed is the trait
default wind_speed_from_wind over the stored wind, and relative
humidity is the trait default rh_from_dewpoint. -/
def WxEntryLayerStruct.view (F : FloatOps) (l : WxEntryLayerStruct) :
    LayerView :=
  { temperature := l.temperature
    windSpeed := l.wind.map (fun w => w.speed)
    relativeHumidity := l.relativeHumidity F }

/-- WxEntryStruct from src/wxentry/entry_struct.rs: the dense
observation backing consumed by comfort_index.  The date_time and
station fields carry no data any claim reads and are omitted; the layer
map becomes a function from layer tags to optional layer records. -/
structure WxEntryStruct where
  layers : Layer → Option WxEntryLayerStruct
  skycover : Option SkyCoverage
  wxCodes : Option (List (List Char))
  rawMetar : Option (List Char)
  precipToday : Option Precip
  precipProbability : Option Fraction
  precip : Option Precip
  altimeter : Option Pressure
  cape : Option SpecEnergy

/-- The trait accessor surface(): layer lookup at NearSurface
(src/wxentry.rs lines 70-72). -/
def WxEntryStruct.surface (e : WxEntryStruct) : Option WxEntryLayerStruct :=
  e.layers Layer.NearSurface

/-- The trait default wx() (src/wxentry.rs lines 41-48): fold every
present-weather code through the parser and combinator, absent when no
code list is present. -/
def WxEntryStruct.wx (e : WxEntryStruct) : Option Wx :=
  e.wxCodes.map
    (fun codes => codes.foldl (fun w c => w.combine (Wx.parseCode c)) Wx.noWx)

-- ======================================================================
-- Comfort index (src/comfort.rs)
-- ======================================================================

/-- Factor enum from src/comfort.rs. -/
inductive Factor where
  | Temperature
  | CloudCover
  | Rain
  | HeatIndex
  | WindChill
  | Humidity
  | DryAir
deriving DecidableEq, Repr

/-- A table threshold: some q is an f32 literal threshold, none stands
for the f32::MIN sentinel, which every finite reading satisfies. -/
def tableGe (v : ℚ) : Option ℚ → Bool
  | none => true
  | some m => decide (m ≤ v)

/-- get_from_table from src/comfort.rs (lines 141-148): first row whose
threshold the value reaches wins; if no row matches, the last row's
score is returned (so a singleton table always returns its row; the
source panics on an empty table, which no call site produces -- 0 is
returned here instead). -/
def getFromTable (v : ℚ) : List (Option ℚ × ℕ) → ℕ
  | [] => 0
  | [e] => e.2
  | e :: f :: rest =>
      if tableGe v e.1 then e.2 else getFromTable v (f :: rest)

/-- TEMPERATURE_FACTORS from src/comfort.rs. -/
def temperatureFactors : List (Option ℚ × ℕ) :=
  [(some 105, 0), (some 95, 2), (some 90, 4), (some 85, 5), (some 77, 8),
   (some 65, 10), (some 55, 9), (some 45, 7), (some 38, 4), (some 35, 3),
   (some 27, 4), (some 20, 2), (some 10, 1), (none, 0)]

/-- CLOUD_COVER_DAY_FACTORS from src/comfort.rs. -/
def cloudCoverDayFactors : List (Option ℚ × ℕ) :=
  [(some 7, 8), (some 5, 9), (some 1, 10), (none, 9)]

/-- HEAT_INDEX_FACTORS from src/comfort.rs. -/
def heatIndexFactors : List (Option ℚ × ℕ) :=
  [(some 105, 0), (some 100, 1), (some 95, 3), (some 85, 5), (some 80, 8),
   (none, 10)]

/-- WIND_CHILL_FACTORS from src/comfort.rs. -/
def windChillFactors : List (Option ℚ × ℕ) :=
  [(some 65, 10), (some 45, 8), (some 35, 5), (some 27, 4), (some 22, 3),
   (some 15, 2), (some 5, 1), (none, 0)]

/-- RELATIVE_HUMIDITY_FACTORS from src/comfort.rs (no sentinel row). -/
def relativeHumidityFactors : List (Option ℚ × ℕ) :=
  [(some 20, 10), (some 10, 5), (some 0, 2)]

/-- DEWPOINT_FACTORS from src/comfort.rs. -/
def dewpointFactors : List (Option ℚ × ℕ) :=
  [(some 75, 2), (some 70, 5), (some 65, 8), (some 20, 10), (some 0, 8),
   (none, 3)]

/-- The rain sub-score closure from src/comfort.rs (lines 24-41):
freezing rain (beyond nearby) scores 0, fog scores 9, otherwise the
rain intensity is looked up. -/
def rainScore (w : Wx) : ℕ :=
  if w.freezing ∧ ¬(w.rain = Intensity.NoneI ∨ w.rain = Intensity.Nearby)
  then 0
  else if w.fog then 9
  else
    match w.rain with
    | Intensity.NoneI => 10
    | Intensity.Nearby => 10
    | Intensity.VeryLight => 7
    | Intensity.Light => 6
    | Intensity.Medium => 4
    | Intensity.Heavy => 5

/-- The lightning modifier from src/comfort.rs (lines 43-46). -/
def lightningModifier (e : WxEntryStruct) : ℕ :=
  (e.wx.map (fun w => if w.thunderstorm then 5 else 0)).getD 0

/-- The snow modifier from src/comfort.rs (lines 48-71). -/
def snowModifier (e : WxEntryStruct) : ℕ :=
  (e.wx.map (fun w =>
    if w.snow = Intensity.NoneI ∨ w.snow = Intensity.Nearby then 0
    else if w.thunderstorm then 10
    else if w.squalls then 5
    else
      match w.snow with
      | Intensity.VeryLight => 1
      | Intensity.Light => 2
      | Intensity.Medium => 3
      | Intensity.Heavy => 5
      | Intensity.NoneI => 0
      | Intensity.Nearby => 0)).getD 0

/-- The tornado modifier from src/comfort.rs (lines 73-82). -/
def tornadoModifier (e : WxEntryStruct) : ℕ :=
  (e.wx.map (fun w =>
    if w.funnelCloud = Intensity.NoneI then 0 else 10)).getD 0

/-- The temperature sub-score from src/comfort.rs (lines 14-17). -/
def tempScore (e : WxEntryStruct) : Option ℕ :=
  (e.surface.bind (fun x => x.temperature)).map
    (fun x => getFromTable (x.valueIn TemperatureUnit.Fahrenheit)
      temperatureFactors)

/-- The cloud-cover sub-score from src/comfort.rs (lines 19-22). -/
def cloudScore (e : WxEntryStruct) : Option ℕ :=
  e.skycover.map (fun x => getFromTable (x.oktas : ℚ) cloudCoverDayFactors)

/-- The rain sub-score from src/comfort.rs (lines 24-41). -/
def rainFactorScore (e : WxEntryStruct) : Option ℕ :=
  e.wx.map rainScore

/-- The heat-index sub-score from src/comfort.rs (lines 84-87). -/
def heatIndexScore (F : FloatOps) (e : WxEntryStruct) : Option ℕ :=
  (e.surface.bind (fun x => heatIndex (x.view F))).map
    (fun x => getFromTable (x.valueIn TemperatureUnit.Fahrenheit)
      heatIndexFactors)

/-- The wind-chill sub-score from src/comfort.rs (lines 89-92). -/
def windChillScore (F : FloatOps) (e : WxEntryStruct) : Option ℕ :=
  (e.surface.bind (fun x => windChill F (x.view F))).map
    (fun x => getFromTable (x.valueIn TemperatureUnit.Fahrenheit)
      windChillFactors)

/-- The dry-air sub-score from src/comfort.rs (lines 94-97). -/
def rhScore (F : FloatOps) (e : WxEntryStruct) : Option ℕ :=
  (e.surface.bind (fun x => x.relativeHumidity F)).map
    (fun x => getFromTable (x.valueIn fractionalCoeff FractionalUnit.Percent)
      relativeHumidityFactors)

/-- The humidity (dewpoint) sub-score from src/comfort.rs (lines
99-102). -/
def dewpointScore (e : WxEntryStruct) : Option ℕ :=
  (e.surface.bind (fun x => x.dewpoint)).map
    (fun x => getFromTable (x.valueIn TemperatureUnit.Fahrenheit)
      dewpointFactors)

/-- The factors array from src/comfort.rs (lines 104-112), in
declaration order. -/
def comfortFactors (F : FloatOps) (e : WxEntryStruct) :
    List (Option ℕ × Factor) :=
  [(tempScore e, Factor.Temperature),
   (cloudScore e, Factor.CloudCover),
   (heatIndexScore F e, Factor.HeatIndex),
   (windChillScore F e, Factor.WindChill),
   (rainFactorScore e, Factor.Rain),
   (rhScore F e, Factor.DryAir),
   (dewpointScore e, Factor.Humidity)]

/-- The comparison key of min_by in src/comfort.rs line 116: an absent
sub-score compares as 10. -/
def scoreKey (p : Option ℕ × Factor) : ℕ := p.1.getD 10

/-- One step of Iterator::min_by's reduction: keep the accumulator
unless the next element is strictly smaller, so the first minimal
element wins. -/
def pickMin (acc y : Option ℕ × Factor) : Option ℕ × Factor :=
  if scoreKey y < scoreKey acc then y else acc

/-- Iterator::min_by over a list: none only on the empty list. -/
def minByFirst : List (Option ℕ × Factor) → Option (Option ℕ × Factor)
  | [] => none
  | x :: xs => some (xs.foldl pickMin x)

/-- The selected pre-penalty score and limiting factor: the two ?
operators of src/comfort.rs lines 114-118 (absent if min_by selected an
entry whose sub-score is absent). -/
def comfortPre (F : FloatOps) (e : WxEntryStruct) : Option (ℕ × Factor) :=
  (minByFirst (comfortFactors F e)).bind
    (fun p => p.1.map (fun v => (v, p.2)))

/-- comfort_index from src/comfort.rs (lines 13-123): the selected
minimum plus the three modifiers, clamped above by 10. -/
def comfortIndex (F : FloatOps) (e : WxEntryStruct) : Option (ℕ × Factor) :=
  (comfortPre F e).map (fun p =>
    (min (p.1 + (lightningModifier e + snowModifier e + tornadoModifier e)) 10,
      p.2))

theorem pickMin_eq_or (x y : Option ℕ × Factor) :
    pickMin x y = y ∨ pickMin x y = x := by
  unfold pickMin
  split
  · exact Or.inl rfl
  · exact Or.inr rfl

theorem scoreKey_pickMin_le_left (x y : Option ℕ × Factor) :
    scoreKey (pickMin x y) ≤ scoreKey x := by
  unfold pickMin
  split <;> omega

theorem scoreKey_pickMin_le_right (x y : Option ℕ × Factor) :
    scoreKey (pickMin x y) ≤ scoreKey y := by
  unfold pickMin
  split <;> omega

theorem foldl_pickMin_mem (xs : List (Option ℕ × Factor))
    (x : Option ℕ × Factor) : xs.foldl pickMin x ∈ x :: xs := by
  induction xs generalizing x with
  | nil => simp
  | cons y ys ih =>
    rw [List.foldl_cons]
    rcases List.mem_cons.1 (ih (pickMin x y)) with h | h
    · rw [h]
      rcases pickMin_eq_or x y with h2 | h2 <;> rw [h2] <;> simp
    · simp [h]

theorem foldl_pickMin_le (xs : List (Option ℕ × Factor))
    (x : Option ℕ × Factor) :
    ∀ p ∈ x :: xs, scoreKey (xs.foldl pickMin x) ≤ scoreKey p := by
  induction xs generalizing x with
  | nil =>
    intro p hp
    rcases List.mem_cons.1 hp with h | h
    · rw [h]; simp
    · simp at h
  | cons y ys ih =>
    intro p hp
    rw [List.foldl_cons]
    rcases List.mem_cons.1 hp with h | h
    · calc scoreKey (ys.foldl pickMin (pickMin x y))
          ≤ scoreKey (pickMin x y) :=
            ih (pickMin x y) (pickMin x y) (List.mem_cons_self _ _)
        _ ≤ scoreKey x := scoreKey_pickMin_le_left x y
        _ = scoreKey p := by rw [h]
    · rcases List.mem_cons.1 h with h2 | h2
      · calc scoreKey (ys.foldl pickMin (pickMin x y))
            ≤ scoreKey (pickMin x y) :=
              ih (pickMin x y) (pickMin x y) (List.mem_cons_self _ _)
          _ ≤ scoreKey y := scoreKey_pickMin_le_right x y
          _ = scoreKey p := by rw [h2]
      · exact ih (pickMin x y) p (List.mem_cons_of_mem _ h2)

theorem foldl_pickMin_first (xs : List (Option ℕ × Factor))
    (x : Option ℕ × Factor) :
    ∃ l₁ l₂, x :: xs = l₁ ++ (xs.foldl pickMin x) :: l₂ ∧
      ∀ p ∈ l₁, scoreKey (xs.foldl pickMin x) < scoreKey p := by
  induction xs generalizing x with
  | nil => exact ⟨[], [], rfl, by simp⟩
  | cons y ys ih =>
    rw [List.foldl_cons]
    by_cases hc : scoreKey y < scoreKey x
    · have hp : pickMin x y = y := by unfold pickMin; rw [if_pos hc]
      rw [hp]
      obtain ⟨l₁, l₂, heq, hlt⟩ := ih y
      refine ⟨x :: l₁, l₂, by rw [List.cons_append, ← heq], ?_⟩
      intro p hp2
      rcases List.mem_cons.1 hp2 with h | h
      · rw [h]
        calc scoreKey (ys.foldl pickMin y) ≤ scoreKey y :=
              foldl_pickMin_le ys y y (List.mem_cons_self _ _)
          _ < scoreKey x := hc
      · exact hlt p h
    · have hp : pickMin x y = x := by unfold pickMin; rw [if_neg hc]
      rw [hp]
      obtain ⟨l₁, l₂, heq, hlt⟩ := ih x
      rcases l₁ with _ | ⟨a, t⟩
      · simp only [List.nil_append] at heq
        injection heq with h1 h2
        refine ⟨[], y :: l₂, ?_, by simp⟩
        simp only [List.nil_append]
        rw [← h1, ← h2]
      · rw [List.cons_append] at heq
        injection heq with hax htail
        refine ⟨x :: y :: t, l₂, ?_, ?_⟩
        · rw [List.cons_append, List.cons_append, ← htail]
        · intro p hp2
          have hrx : scoreKey (ys.foldl pickMin x) < scoreKey x := by
            have h3 := hlt a (List.mem_cons_self _ _)
            rw [← hax] at h3
            exact h3
          rcases List.mem_cons.1 hp2 with h | h
          · rw [h]; exact hrx
          · rcases List.mem_cons.1 h with h2 | h2
            · rw [h2]; omega
            · exact hlt p (List.mem_cons_of_mem _ h2)

/-- The characterization of Iterator::min_by on any list: the selected
element is a member, its key is minimal, and every element before it
has a strictly larger key (first minimal element wins). -/
theorem minByFirst_spec (l : List (Option ℕ × Factor))
    (r : Option ℕ × Factor) (h : minByFirst l = some r) :
    r ∈ l ∧ (∀ p ∈ l, scoreKey r ≤ scoreKey p) ∧
    ∃ l₁ l₂, l = l₁ ++ r :: l₂ ∧ ∀ p ∈ l₁, scoreKey r < scoreKey p := by
  rcases l with _ | ⟨x, xs⟩
  · exact Option.noConfusion h
  · have hr : xs.foldl pickMin x = r := Option.some.inj h
    subst hr
    exact ⟨foldl_pickMin_mem xs x, foldl_pickMin_le xs x,
      foldl_pickMin_first xs x⟩

/-- get_from_table stays within the table's score range: if every row
scores at most 10, so does the lookup. -/
theorem getFromTable_le_ten (v : ℚ) (table : List (Option ℚ × ℕ))
    (h : ∀ p ∈ table, p.2 ≤ 10) : getFromTable v table ≤ 10 := by
  induction table with
  | nil => simp [getFromTable]
  | cons e rest ih =>
    rcases rest with _ | ⟨f, rest2⟩
    · simpa [getFromTable] using h e (by simp)
    · rw [getFromTable]
      split
      · exact h e (by simp)
      · exact ih (fun p hp => h p (List.mem_cons_of_mem _ hp))

/-- Every row of every comfort lookup table scores at most 10. -/
theorem tableRows_le_ten :
    (∀ p ∈ temperatureFactors, p.2 ≤ 10) ∧
    (∀ p ∈ cloudCoverDayFactors, p.2 ≤ 10) ∧
    (∀ p ∈ heatIndexFactors, p.2 ≤ 10) ∧
    (∀ p ∈ windChillFactors, p.2 ≤ 10) ∧
    (∀ p ∈ relativeHumidityFactors, p.2 ≤ 10) ∧
    (∀ p ∈ dewpointFactors, p.2 ≤ 10) := by
  refine ⟨?_, ?_, ?_, ?_, ?_, ?_⟩ <;> decide

theorem rainScore_le (w : Wx) : rainScore w ≤ 10 := by
  unfold rainScore
  split_ifs
  · omega
  · omega
  · cases hr : w.rain <;> simp

/-- Every present comfort sub-score is at most 10. -/
theorem comfortFactors_le_ten (F : FloatOps) (e : WxEntryStruct) :
    ∀ p ∈ comfortFactors F e, ∀ w, p.1 = some w → w ≤ 10 := by
  intro p hp w hw
  simp only [comfortFactors, List.mem_cons, List.not_mem_nil, or_false] at hp
  rcases hp with h | h | h | h | h | h | h
  · subst h
    simp only [tempScore] at hw
    obtain ⟨a, _, hfa⟩ := Option.map_eq_some'.1 hw
    rw [← hfa]
    exact getFromTable_le_ten _ _ tableRows_le_ten.1
  · subst h
    simp only [cloudScore] at hw
    obtain ⟨a, _, hfa⟩ := Option.map_eq_some'.1 hw
    rw [← hfa]
    exact getFromTable_le_ten _ _ tableRows_le_ten.2.1
  · subst h
    simp only [heatIndexScore] at hw
    obtain ⟨a, _, hfa⟩ := Option.map_eq_some'.1 hw
    rw [← hfa]
    exact getFromTable_le_ten _ _ tableRows_le_ten.2.2.1
  · subst h
    simp only [windChillScore] at hw
    obtain ⟨a, _, hfa⟩ := Option.map_eq_some'.1 hw
    rw [← hfa]
    exact getFromTable_le_ten _ _ tableRows_le_ten.2.2.2.1
  · subst h
    simp only [rainFactorScore] at hw
    obtain ⟨a, _, hfa⟩ := Option.map_eq_some'.1 hw
    rw [← hfa]
    exact rainScore_le _
  · subst h
    simp only [rhScore] at hw
    obtain ⟨a, _, hfa⟩ := Option.map_eq_some'.1 hw
    rw [← hfa]
    exact getFromTable_le_ten _ _ tableRows_le_ten.2.2.2.2.1
  · subst h
    simp only [dewpointScore] at hw
    obtain ⟨a, _, hfa⟩ := Option.map_eq_some'.1 hw
    rw [← hfa]
    exact getFromTable_le_ten _ _ tableRows_le_ten.2.2.2.2.2

/-- C3 (claim theorem, amended).  The pre-penalty comfort score is the
minimum over the present sub-scores with ties -- including ties against
absent sub-scores, which compare as 10 -- broken by earliest declaration
order: when it is present with value v and factor fac, that pair is one
of the seven factors, v is at most every present sub-score, and every
factor declared earlier has a strictly larger comparison key (so among
present signals that tie at the minimum the earliest wins); when it is
absent, every present sub-score equals 10 (the selection landed on an
absent signal that tied at 10 with every present one). -/
theorem comfortPre_minimum (F : FloatOps) (e : WxEntryStruct) :
    (∀ v fac, comfortPre F e = some (v, fac) →
      (some v, fac) ∈ comfortFactors F e ∧
      (∀ p ∈ comfortFactors F e, ∀ w, p.1 = some w → v ≤ w) ∧
      (∃ l₁ l₂, comfortFactors F e = l₁ ++ (some v, fac) :: l₂ ∧
        ∀ p ∈ l₁, v < scoreKey p)) ∧
    (comfortPre F e = none →
      ∀ p ∈ comfortFactors F e, ∀ w, p.1 = some w → w = 10) := by
  constructor
  · intro v fac h
    unfold comfortPre at h
    rcases hm : minByFirst (comfortFactors F e) with _ | ⟨r1, r2⟩
    · rw [hm] at h; exact Option.noConfusion h
    · rw [hm] at h
      simp only [Option.some_bind] at h
      obtain ⟨a, ha, hfa⟩ := Option.map_eq_some'.1 h
      injection hfa with h1 h2
      subst h1
      subst h2
      subst ha
      obtain ⟨hmem, hle, hfirst⟩ := minByFirst_spec _ _ hm
      refine ⟨hmem, ?_, ?_⟩
      · intro p hp w hw
        have h3 := hle p hp
        simp only [scoreKey, hw, Option.getD_some] at h3
        exact h3
      · obtain ⟨l₁, l₂, heq, hlt⟩ := hfirst
        refine ⟨l₁, l₂, heq, fun p hp => ?_⟩
        have h3 := hlt p hp
        simp only [scoreKey, Option.getD_some] at h3
        exact h3
  · intro h p hp w hw
    unfold comfortPre at h
    rcases hm : minByFirst (comfortFactors F e) with _ | ⟨r1, r2⟩
    · rcases hl : comfortFactors F e with _ | ⟨z, zs⟩
      · rw [hl] at hp; simp at hp
      · rw [hl] at hm; simp [minByFirst] at hm
    · rw [hm] at h
      simp only [Option.some_bind] at h
      have hr1 : r1 = none := by
        rcases r1 with _ | a
        · rfl
        · simp at h
      subst hr1
      have hle := (minByFirst_spec _ _ hm).2.1 p hp
      have hb := comfortFactors_le_ten F e p hp w hw
      simp only [scoreKey, hw, Option.getD_some, Option.getD_none] at hle
      omega

/-- A concrete FloatOps instantiation for evaluating observations whose
comfort computation never reaches a transcendental intrinsic. -/
def floatOpsStub : FloatOps :=
  ⟨fun _ _ => 0, fun _ => 0, fun _ => 0, fun _ => 0, fun _ => 0, 0⟩

/-- A near-surface layer reading 80 degrees F with nothing else. -/
def layerC1 : WxEntryLayerStruct :=
  { layer := Layer.NearSurface
    temperature := some ⟨80, TemperatureUnit.Fahrenheit⟩
    pressure := none
    visibility := none
    wind := none
    dewpoint := none
    heightMsl := none }

/-- An observation with surface temperature 80 degrees F and the
present-weather code TS (thunderstorm, no precipitation). -/
def entryC1 : WxEntryStruct :=
  { layers := fun l =>
      match l with
      | Layer.NearSurface => some layerC1
      | _ => none
    skycover := none
    wxCodes := some [['T','S']]
    rawMetar := none
    precipToday := none
    precipProbability := none
    precip := none
    altimeter := none
    cape := none }

theorem tempScore_entryC1 : tempScore entryC1 = some 8 := by
  have h1 : entryC1.surface.bind (fun x => x.temperature)
      = some ⟨80, TemperatureUnit.Fahrenheit⟩ := rfl
  simp only [tempScore, h1, Option.map_some', temperature_valueIn_f]
  decide

theorem comfortFactors_entryC1 :
    comfortFactors floatOpsStub entryC1 =
      [(some 8, Factor.Temperature), (none, Factor.CloudCover),
       (none, Factor.HeatIndex), (none, Factor.WindChill),
       (some 10, Factor.Rain), (none, Factor.DryAir),
       (none, Factor.Humidity)] := by
  have hc : cloudScore entryC1 = none := rfl
  have hh : heatIndexScore floatOpsStub entryC1 = none := rfl
  have hw : windChillScore floatOpsStub entryC1 = none := rfl
  have hr : rainFactorScore entryC1 = some 10 := by decide
  have hrh : rhScore floatOpsStub entryC1 = none := rfl
  have hd : dewpointScore entryC1 = none := rfl
  simp only [comfortFactors, tempScore_entryC1, hc, hh, hw, hr, hrh, hd]

theorem comfortPre_entryC1 :
    comfortPre floatOpsStub entryC1 = some (8, Factor.Temperature) := by
  unfold comfortPre
  rw [comfortFactors_entryC1]
  decide

theorem comfortIndex_entryC1 :
    comfortIndex floatOpsStub entryC1 = some (10, Factor.Temperature) := by
  unfold comfortIndex
  rw [comfortPre_entryC1]
  have hl : lightningModifier entryC1 = 5 := by decide
  have hs : snowModifier entryC1 = 0 := by decide
  have ht : tornadoModifier entryC1 = 0 := by decide
  rw [Option.map_some', hl, hs, ht]
  decide

/-- C1 (claim theorem, exhibiting the code bug).  On the observation
with surface temperature 80 degrees F (pre-penalty minimum sub-score 8,
limiting factor temperature) and a concurrent thunderstorm, the +5
thunderstorm modifier is added to the score and the sum clamped at 10,
yielding 10 -- a better (closer to ideal) score than the pre-penalty 8,
where the claim requires penalties never to improve the score. -/
theorem comfort_penalty_raises_score :
    comfortPre floatOpsStub entryC1 = some (8, Factor.Temperature) ∧
    comfortIndex floatOpsStub entryC1 = some (10, Factor.Temperature) ∧
    8 < 10 :=
  ⟨comfortPre_entryC1, comfortIndex_entryC1, by norm_num⟩

/-- An observation with a single FEW cloud layer and nothing else: the
cloud-cover signal is present (sub-score 10) and every other signal is
absent. -/
def entryFEW : WxEntryStruct :=
  { layers := fun _ => none
    skycover := some (SkyCoverage.Cloudy [⟨CloudLayerCoverage.Few, 1000⟩])
    wxCodes := none
    rawMetar := none
    precipToday := none
    precipProbability := none
    precip := none
    altimeter := none
    cape := none }

theorem cloudScore_entryFEW : cloudScore entryFEW = some 10 := by
  have h1 : entryFEW.skycover
      = some (SkyCoverage.Cloudy [⟨CloudLayerCoverage.Few, 1000⟩]) := rfl
  simp only [cloudScore, h1, Option.map_some']
  have h2 : ((SkyCoverage.Cloudy
      [⟨CloudLayerCoverage.Few, 1000⟩]).oktas : ℚ) = 1 := by
    norm_num [SkyCoverage.oktas, CloudLayer.oktas]
  rw [h2]
  decide

theorem comfortFactors_entryFEW :
    comfortFactors floatOpsStub entryFEW =
      [(none, Factor.Temperature), (some 10, Factor.CloudCover),
       (none, Factor.HeatIndex), (none, Factor.WindChill),
       (none, Factor.Rain), (none, Factor.DryAir),
       (none, Factor.Humidity)] := by
  have ht : tempScore entryFEW = none := rfl
  have hh : heatIndexScore floatOpsStub entryFEW = none := rfl
  have hw : windChillScore floatOpsStub entryFEW = none := rfl
  have hr : rainFactorScore entryFEW = none := rfl
  have hrh : rhScore floatOpsStub entryFEW = none := rfl
  have hd : dewpointScore entryFEW = none := rfl
  simp only [comfortFactors, cloudScore_entryFEW, ht, hh, hw, hr, hrh, hd]

/-- C3 counterexample: on the observation whose only present signal is
a FEW cloud layer with sub-score 10, min_by compares the absent
temperature sub-score as 10, ties with the present cloud sub-score, and
selects the earlier (absent) entry, so comfort_index returns absent
even though a present signal exists -- refuting the claim that an
absent signal never makes the overall result absent. -/
theorem comfort_absent_masks_present :
    comfortIndex floatOpsStub entryFEW = none ∧
    cloudScore entryFEW = some 10 := by
  refine ⟨?_, cloudScore_entryFEW⟩
  unfold comfortIndex comfortPre
  rw [comfortFactors_entryFEW]
  decide

/-- C3 witness: the amended minimum theorem applied to the concrete
observation entryC1, whose pre-penalty result is present with value 8
and factor temperature; the theorem places that pair among the seven
factors. -/
theorem comfortPre_minimum_witness :
    comfortPre floatOpsStub entryC1 = some (8, Factor.Temperature) ∧
    (some 8, Factor.Temperature) ∈ comfortFactors floatOpsStub entryC1 :=
  ⟨comfortPre_entryC1,
    ((comfortPre_minimum floatOpsStub entryC1).1 8 Factor.Temperature
      comfortPre_entryC1).1⟩
